import Mathlib

/-!
# Verification of the wix-sql-middleware request handlers

A shallow embedding of `src/index.js`.  Each Express handler becomes a pure
Lean function from an environment (the outcomes the `mssql` driver would
produce for each database interaction) and the current global pool state to
a triple `(trace of database events, new pool state, HTTP response)`.
JavaScript objects parsed from JSON bodies are modelled as association
lists in key insertion order; `undefined` is `Option.none`.
-/

namespace WixSql

/-- A scalar JSON value, as found in request bodies and result rows. -/
inductive JVal where
  | str : String → JVal
  | num : Int → JVal
  | bool : Bool → JVal
  | null : JVal
deriving DecidableEq, Repr

/-- A JavaScript object (parsed JSON body / result row): key-value pairs in
insertion order.  Objects produced by `JSON.parse` have distinct keys. -/
abbrev JObj := List (String × JVal)

/-- `item[col]` in JavaScript: the value stored under a key, or `none`
(i.e. `undefined`) when the key is missing. -/
def jLookup (o : JObj) (k : String) : Option JVal :=
  (o.find? (fun p => p.1 = k)).map (fun p => p.2)

/-- `Object.keys(o)`: the keys in insertion order. -/
def jKeys (o : JObj) : List String := o.map (fun p => p.1)

/-- A pool handle: we only need identity, so a numeric id. -/
abbrev Pool := Nat

/-- An error thrown by the `mssql` driver: `err.code` (may be absent) and
`err.message`. -/
structure SqlError where
  code : Option String
  message : String
deriving DecidableEq, Repr

/-- The connection-class error codes tested by every handler's catch block:
`err.code === 'ETIMEOUT' || err.code === 'ECONNCLOSED' || err.code === 'ECONNRESET'`. -/
def isConnCode (c : Option String) : Bool :=
  c = some "ETIMEOUT" || c = some "ECONNCLOSED" || c = some "ECONNRESET"

/-- The column types of the `mssql` driver that this development needs.
`varChar none` is `sql.VarChar(sql.MAX)`. -/
inductive SqlType where
  | varChar (size : Option Nat)
  | nvarChar (size : Option Nat)
  | intType
deriving DecidableEq, Repr

/-- The `sql.Table` object built by the bulk handler: target table name,
declared columns (name, type, nullable flag), and rows of values in column
order (`none` is a JavaScript `undefined`, transmitted as NULL). -/
structure BulkTable where
  tableName : String
  columns : List (String × SqlType × Bool)
  rows : List (List (Option JVal))
deriving DecidableEq, Repr

/-- One observable database interaction performed by a handler, in program
order.  `wait` records the backoff sleeps of `initializePool`. -/
inductive Ev where
  | closePool (p : Pool)
  | connectCall
  | validationQuery (p : Pool)
  | wait (ms : Nat)
  | execQuery (p : Pool) (q : String) (binds : List (String × JVal))
  | execProc (p : Pool) (name : String) (binds : List (String × JVal))
  | beginTx (p : Pool)
  | txQuery (q : String) (binds : List (String × JVal))
  | commitTx
  | rollbackTx
  | bulkWrite (p : Pool) (t : BulkTable)
deriving DecidableEq, Repr

/-- Events that `initializePool` can emit (pool lifecycle only). -/
def Ev.isPoolEv : Ev → Bool
  | .closePool _ => true
  | .connectCall => true
  | .validationQuery _ => true
  | .wait _ => true
  | _ => false

/-- Is this event the execution of a query via `request.query`? -/
def Ev.isExecQuery : Ev → Bool
  | .execQuery _ _ _ => true
  | _ => false

/-- Driver outcomes for the connection attempts of one `initializePool`
call: `connect k` is the result of the k-th `sql.connect(dbConfig)` and
`test k` the result of the subsequent `SELECT @@VERSION` validation query. -/
structure ConnEnv where
  connect : Nat → Except SqlError Pool
  test : Nat → Except SqlError Unit

/-- Result of `initializePool`: the returned pool, a thrown error, or the
JavaScript `undefined` returned when the loop body never runs
(`retryCount = 0`). -/
inductive InitResult where
  | ok (p : Pool)
  | err (e : SqlError)
  | undef
deriving DecidableEq, Repr

/-- The retry loop of `initializePool` (src/index.js lines 58-99).
`attempt` is the 1-based attempt counter, `fuel` the number of attempts
still allowed (initially `retryCount`), `p` the global `pool` variable.
Each iteration closes any existing pool (close failures are swallowed),
calls `sql.connect`, assigns the new pool on connect success, runs the
validation query, and on failure either sleeps `2000 * attempt` ms and
retries (when `attempt < retryCount`, i.e. remaining fuel is nonzero) or
rethrows the last error. -/
def initLoop (env : ConnEnv) : Nat → Nat → Option Pool → List Ev × Option Pool × InitResult
  | _, 0, p => ([], p, .undef)
  | attempt, fuel + 1, p =>
    let closeEvs : List Ev := match p with
      | some q => [.closePool q]
      | none => []
    match env.connect attempt with
    | .error e =>
      if fuel = 0 then
        (closeEvs ++ [.connectCall], p, .err e)
      else
        let rest := initLoop env (attempt + 1) fuel p
        (closeEvs ++ [.connectCall, .wait (2000 * attempt)] ++ rest.1, rest.2.1, rest.2.2)
    | .ok newPool =>
      match env.test attempt with
      | .ok _ =>
        (closeEvs ++ [.connectCall, .validationQuery newPool], some newPool, .ok newPool)
      | .error e =>
        if fuel = 0 then
          (closeEvs ++ [.connectCall, .validationQuery newPool], some newPool, .err e)
        else
          let rest := initLoop env (attempt + 1) fuel (some newPool)
          (closeEvs ++ [.connectCall, .validationQuery newPool, .wait (2000 * attempt)] ++ rest.1,
           rest.2.1, rest.2.2)

/-- `initializePool(retryCount)` from src/index.js lines 58-99, starting at
attempt 1 with the current global pool `p`. -/
def initializePool (env : ConnEnv) (p : Option Pool) (retryCount : Nat) :
    List Ev × Option Pool × InitResult :=
  initLoop env 1 retryCount p

/-- The `ensurePool` pattern of every handler (e.g. src/index.js lines
146-149): `if (!pool) { await initializePool(); }` followed by using the
pool — a live pool is returned untouched, only an absent one triggers
`initializePool`. -/
def ensurePool (env : ConnEnv) (p : Option Pool) (retryCount : Nat) :
    List Ev × Option Pool × InitResult :=
  match p with
  | some q => ([], some q, .ok q)
  | none => initializePool env none retryCount

/-- C2: calling `ensurePool` when a live Pool already exists is idempotent:
the very same pool is returned, the event trace is empty — so in particular
no `closePool` and no `connectCall` happens — and the global pool state is
unchanged. -/
theorem ensurePool_idempotent_on_live_pool (env : ConnEnv) (p : Pool) (retryCount : Nat) :
    ensurePool env (some p) retryCount = ([], some p, .ok p) := rfl

/-- C3: when every connection attempt fails, `initializePool` with
`retryCount = 5` makes exactly 5 `sql.connect` calls (no 6th), sleeps
`2000 ms × attemptNumber` after each failed attempt except the last
(2000, 4000, 6000, 8000 ms), and rethrows the last underlying failure. -/
theorem initializePool_five_failed_attempts (env : ConnEnv) (e : Nat → SqlError)
    (h : ∀ k, env.connect k = .error (e k)) :
    initializePool env none 5 =
      ([.connectCall, .wait 2000, .connectCall, .wait 4000, .connectCall, .wait 6000,
        .connectCall, .wait 8000, .connectCall], none, .err (e 5)) ∧
    (initializePool env none 5).1.count Ev.connectCall = 5 := by
  have h1 : initializePool env none 5 =
      ([.connectCall, .wait 2000, .connectCall, .wait 4000, .connectCall, .wait 6000,
        .connectCall, .wait 8000, .connectCall], none, .err (e 5)) := by
    simp [initializePool, initLoop, h]
  refine ⟨h1, ?_⟩
  rw [h1]
  rfl

/-- The driver result of `request.query` / a transaction query:
`result.recordset` and the `result.rowsAffected` array. -/
structure QueryResult where
  recordset : List JObj
  rowsAffected : List Nat
deriving DecidableEq, Repr

/-- Environment of one `POST /api/query` call: driver outcomes for the
lazy `initializePool()` (when the pool is absent), for the
`initializePool(1)` reconnect in the catch block, and for
`request.query(query)` itself. -/
structure QueryEnv where
  envInit : ConnEnv
  envReconn : ConnEnv
  exec : Except SqlError QueryResult

/-- Response of `POST /api/query`: 400 with `{error}`, 200 with
`{success:true, data, rowsAffected}` (`rowsAffected[0]` is `undefined`
when the array is empty, hence an `Option`), or 500 with
`{success:false, error, errorCode}`. -/
inductive QueryResp where
  | badRequest (error : String)
  | ok (data : List JObj) (rowsAffected : Option Nat)
  | serverError (error : String) (errorCode : Option String)
deriving DecidableEq, Repr

/-- `Object.keys(params).forEach(key => request.input(key, params[key]))`:
the bindings added to the request handle; nothing when `params` is absent
(or not an object). -/
def bindParams : Option JObj → List (String × JVal)
  | none => []
  | some o => o

/-- The shared catch-block reconnect logic (e.g. src/index.js lines
176-183): when the error code is connection-class or the global pool is
absent, run `initializePool(1)` and swallow its outcome; otherwise do
nothing.  Returns the extra events and the new pool state. -/
def errorCatch (reconnEnv : ConnEnv) (st : Option Pool) (e : SqlError) :
    List Ev × Option Pool :=
  if isConnCode e.code || st.isNone then
    let r := initializePool reconnEnv st 1
    (r.1, r.2.1)
  else ([], st)

/-- The body of `POST /api/query` after validation and pool
initialization: bind parameters, run the query on pool `p`, and either
answer 200 with `result.recordset` and `result.rowsAffected[0]`, or fall
into the catch block. -/
def apiQueryRun (env : QueryEnv) (st : Option Pool) (p : Pool) (q : String)
    (params : Option JObj) : List Ev × Option Pool × QueryResp :=
  let binds := bindParams params
  match env.exec with
  | .ok r => ([.execQuery p q binds], st, .ok r.recordset r.rowsAffected.head?)
  | .error e =>
    let c := errorCatch env.envReconn st e
    (.execQuery p q binds :: c.1, c.2, .serverError e.message e.code)

/-- `POST /api/query` (src/index.js lines 136-192).  `query = none` models
an absent field, `some ""` an empty string: both are falsy, answered 400
before any database interaction.  Otherwise the pool is lazily
initialized when absent, and the query is executed. -/
def apiQuery (env : QueryEnv) (st : Option Pool) (query : Option String)
    (params : Option JObj) : List Ev × Option Pool × QueryResp :=
  match query with
  | none => ([], st, .badRequest "Query is required")
  | some q =>
    if q = "" then ([], st, .badRequest "Query is required")
    else
      match st with
      | some p => apiQueryRun env (some p) p q params
      | none =>
        let ini := initializePool env.envInit none 5
        match ini.2.2 with
        | .ok p =>
          let r := apiQueryRun env ini.2.1 p q params
          (ini.1 ++ r.1, r.2.1, r.2.2)
        | .err e =>
          let c := errorCatch env.envReconn ini.2.1 e
          (ini.1 ++ c.1, c.2, .serverError e.message e.code)
        | .undef =>
          match ini.2.1 with
          | some p =>
            let r := apiQueryRun env (some p) p q params
            (ini.1 ++ r.1, r.2.1, r.2.2)
          | none =>
            let e : SqlError := ⟨none, "Cannot read properties of undefined"⟩
            let c := errorCatch env.envReconn none e
            (ini.1 ++ c.1, c.2, .serverError e.message e.code)

/-- The driver result of `request.execute(procedure)`: adds the output
parameter record `result.output`. -/
structure ProcResult where
  recordset : List JObj
  output : JObj
  rowsAffected : List Nat
deriving DecidableEq, Repr

/-- Environment of one `POST /api/procedure` call. -/
structure ProcEnv where
  envInit : ConnEnv
  envReconn : ConnEnv
  exec : Except SqlError ProcResult

/-- Response of `POST /api/procedure`. -/
inductive ProcResp where
  | badRequest (error : String)
  | ok (data : List JObj) (outputParameters : JObj) (rowsAffected : Option Nat)
  | serverError (error : String) (errorCode : Option String)
deriving DecidableEq, Repr

/-- The body of `POST /api/procedure` after validation and pool
initialization. -/
def apiProcedureRun (env : ProcEnv) (st : Option Pool) (p : Pool) (name : String)
    (params : Option JObj) : List Ev × Option Pool × ProcResp :=
  let binds := bindParams params
  match env.exec with
  | .ok r => ([.execProc p name binds], st, .ok r.recordset r.output r.rowsAffected.head?)
  | .error e =>
    let c := errorCatch env.envReconn st e
    (.execProc p name binds :: c.1, c.2, .serverError e.message e.code)

/-- `POST /api/procedure` (src/index.js lines 195-252). -/
def apiProcedure (env : ProcEnv) (st : Option Pool) (procedure : Option String)
    (params : Option JObj) : List Ev × Option Pool × ProcResp :=
  match procedure with
  | none => ([], st, .badRequest "Procedure name is required")
  | some name =>
    if name = "" then ([], st, .badRequest "Procedure name is required")
    else
      match st with
      | some p => apiProcedureRun env (some p) p name params
      | none =>
        let ini := initializePool env.envInit none 5
        match ini.2.2 with
        | .ok p =>
          let r := apiProcedureRun env ini.2.1 p name params
          (ini.1 ++ r.1, r.2.1, r.2.2)
        | .err e =>
          let c := errorCatch env.envReconn ini.2.1 e
          (ini.1 ++ c.1, c.2, .serverError e.message e.code)
        | .undef =>
          match ini.2.1 with
          | some p =>
            let r := apiProcedureRun env (some p) p name params
            (ini.1 ++ r.1, r.2.1, r.2.2)
          | none =>
            let e : SqlError := ⟨none, "Cannot read properties of undefined"⟩
            let c := errorCatch env.envReconn none e
            (ini.1 ++ c.1, c.2, .serverError e.message e.code)

/-- Construction of the `sql.Table` in `POST /api/bulk` (src/index.js
lines 272-290): columns are `Object.keys(data[0])` in insertion order,
each declared `sql.VarChar(sql.MAX)` with `{nullable: true}`; every row's
values are `columns.map(col => item[col])` — a missing key yields
`undefined` (`none`), transmitted as NULL. -/
def buildBulkTable (table : String) (data : List JObj) : BulkTable :=
  match data with
  | [] => ⟨table, [], []⟩
  | first :: rest =>
    let columns := jKeys first
    ⟨table,
     columns.map (fun c => (c, SqlType.varChar none, true)),
     (first :: rest).map (fun item => columns.map (fun c => jLookup item c))⟩

/-- Environment of one `POST /api/bulk` call; `bulkExec` is the outcome of
`pool.request().bulk(bulkTable)` whose `result.rowsAffected` is a number. -/
structure BulkEnv where
  envInit : ConnEnv
  envReconn : ConnEnv
  bulkExec : Except SqlError Nat

/-- Response of `POST /api/bulk`. -/
inductive BulkResp where
  | badRequest (error : String)
  | ok (rowsAffected : Nat)
  | serverError (error : String) (errorCode : Option String)
deriving DecidableEq, Repr

/-- The body of `POST /api/bulk` after validation and pool initialization. -/
def apiBulkRun (env : BulkEnv) (st : Option Pool) (p : Pool) (t : String)
    (data : List JObj) : List Ev × Option Pool × BulkResp :=
  let bt := buildBulkTable t data
  match env.bulkExec with
  | .ok n => ([.bulkWrite p bt], st, .ok n)
  | .error e =>
    let c := errorCatch env.envReconn st e
    (.bulkWrite p bt :: c.1, c.2, .serverError e.message e.code)

/-- `POST /api/bulk` (src/index.js lines 255-321).  `table = none` /
`some ""` are the falsy table names; `data = none` models an absent or
non-array `data` field, `some []` an empty array: all are answered 400
before any database interaction. -/
def apiBulk (env : BulkEnv) (st : Option Pool) (table : Option String)
    (data : Option (List JObj)) : List Ev × Option Pool × BulkResp :=
  match table, data with
  | some t, some (first :: rest) =>
    if t = "" then ([], st, .badRequest "Valid table name and data array are required")
    else
      match st with
      | some p => apiBulkRun env (some p) p t (first :: rest)
      | none =>
        let ini := initializePool env.envInit none 5
        match ini.2.2 with
        | .ok p =>
          let r := apiBulkRun env ini.2.1 p t (first :: rest)
          (ini.1 ++ r.1, r.2.1, r.2.2)
        | .err e =>
          let c := errorCatch env.envReconn ini.2.1 e
          (ini.1 ++ c.1, c.2, .serverError e.message e.code)
        | .undef =>
          match ini.2.1 with
          | some p =>
            let r := apiBulkRun env (some p) p t (first :: rest)
            (ini.1 ++ r.1, r.2.1, r.2.2)
          | none =>
            let e : SqlError := ⟨none, "Cannot read properties of undefined"⟩
            let c := errorCatch env.envReconn none e
            (ini.1 ++ c.1, c.2, .serverError e.message e.code)
  | _, _ => ([], st, .badRequest "Valid table name and data array are required")

/-- One entry of the `queries` array of `POST /api/transaction`:
`{query, params}`. -/
structure TxQuery where
  query : String
  params : Option JObj
deriving DecidableEq, Repr

/-- One entry of the `results` array in the transaction success response:
`{data: result.recordset, rowsAffected: result.rowsAffected[0]}`. -/
structure TxResult where
  data : List JObj
  rowsAffected : Option Nat
deriving DecidableEq, Repr

/-- Environment of one `POST /api/transaction` call: outcomes of
`transaction.begin()`, of the i-th statement's `request.query`, of
`transaction.commit()`, of `transaction.rollback()`, plus the connection
environments for lazy init and catch-block reconnect. -/
structure TxEnv where
  envInit : ConnEnv
  envReconn : ConnEnv
  beginRes : Except SqlError Unit
  execTx : Nat → Except SqlError QueryResult
  commitRes : Except SqlError Unit
  rollbackRes : Except SqlError Unit

/-- Response of `POST /api/transaction`. -/
inductive TxResp where
  | badRequest (error : String)
  | ok (results : List TxResult)
  | serverError (error : String) (errorCode : Option String)
deriving DecidableEq, Repr

/-- The statement loop of `POST /api/transaction` (src/index.js lines
353-377): execute each query in list order on the transaction scope,
accumulating `{data, rowsAffected}` per statement; stop at the first
failure.  `i` is the index of the first statement of `qs` in the original
request. -/
def txLoop (env : TxEnv) : List TxQuery → Nat → List Ev × Except SqlError (List TxResult)
  | [], _ => ([], .ok [])
  | q :: rest, i =>
    let binds := bindParams q.params
    match env.execTx i with
    | .error e => ([.txQuery q.query binds], .error e)
    | .ok r =>
      let next := txLoop env rest (i + 1)
      (.txQuery q.query binds :: next.1,
       match next.2 with
       | .ok rs => .ok (⟨r.recordset, r.rowsAffected.head?⟩ :: rs)
       | .error e => .error e)

/-- The transaction catch block (src/index.js lines 388-418): roll back
when the `transaction` variable was set (rollback failure is only
logged), then the shared reconnect logic, then 500 with the original
error. -/
def txCatch (env : TxEnv) (st : Option Pool) (txExists : Bool) (e : SqlError) :
    List Ev × Option Pool × TxResp :=
  let rollbackEvs : List Ev := if txExists then [.rollbackTx] else []
  let c := errorCatch env.envReconn st e
  (rollbackEvs ++ c.1, c.2, .serverError e.message e.code)

/-- The body of `POST /api/transaction` once a pool `p` is available:
`new sql.Transaction(pool)` (so the catch block will attempt rollback),
begin, the statement loop, commit, 200 with `results`. -/
def apiTransactionRun (env : TxEnv) (st : Option Pool) (p : Pool) (qs : List TxQuery) :
    List Ev × Option Pool × TxResp :=
  match env.beginRes with
  | .error e =>
    let c := txCatch env st true e
    (.beginTx p :: c.1, c.2.1, c.2.2)
  | .ok _ =>
    let body := txLoop env qs 0
    match body.2 with
    | .ok results =>
      match env.commitRes with
      | .ok _ => (.beginTx p :: body.1 ++ [.commitTx], st, .ok results)
      | .error e =>
        let c := txCatch env st true e
        (.beginTx p :: body.1 ++ [.commitTx] ++ c.1, c.2.1, c.2.2)
    | .error e =>
      let c := txCatch env st true e
      (.beginTx p :: body.1 ++ c.1, c.2.1, c.2.2)

/-- `POST /api/transaction` (src/index.js lines 324-419).  `queries = none`
models an absent or non-array field, `some []` an empty array: both are
answered 400.  When the lazy `initializePool()` throws, the `transaction`
variable is still unset, so no rollback is attempted in the catch block. -/
def apiTransaction (env : TxEnv) (st : Option Pool) (queries : Option (List TxQuery)) :
    List Ev × Option Pool × TxResp :=
  match queries with
  | none => ([], st, .badRequest "Valid queries array is required")
  | some [] => ([], st, .badRequest "Valid queries array is required")
  | some (q :: rest) =>
    match st with
    | some p => apiTransactionRun env (some p) p (q :: rest)
    | none =>
      let ini := initializePool env.envInit none 5
      match ini.2.2 with
      | .ok p =>
        let r := apiTransactionRun env ini.2.1 p (q :: rest)
        (ini.1 ++ r.1, r.2.1, r.2.2)
      | .err e =>
        let c := txCatch env ini.2.1 false e
        (ini.1 ++ c.1, c.2.1, c.2.2)
      | .undef =>
        match ini.2.1 with
        | some p =>
          let r := apiTransactionRun env (some p) p (q :: rest)
          (ini.1 ++ r.1, r.2.1, r.2.2)
        | none =>
          let e : SqlError := ⟨none, "Cannot read properties of undefined"⟩
          let c := txCatch env none true e
          (ini.1 ++ c.1, c.2.1, c.2.2)

/-- Environment of one `GET /api/health` call: the outcome of the
`SELECT 1 AS result` probe (consulted only when a pool exists) and the
connection environment of the fire-and-forget `initializePool(1)` started
when the probe fails (its rejection is discarded by `.catch(() => {})`). -/
structure HealthEnv where
  probe : Except SqlError Unit
  envReconn : ConnEnv

/-- Response of `GET /api/health`: HTTP status, top-level `status` and
`message` fields, and the `database` sub-object's `connected` and
`message` fields. -/
structure HealthResp where
  httpStatus : Nat
  status : String
  message : String
  dbConnected : Bool
  dbMessage : String
deriving DecidableEq, Repr

/-- `GET /api/health` (src/index.js lines 107-133).  Every path ends in
`res.status(200).json({status:'OK', ...})`; database trouble only shows
up inside the `database` field. -/
def apiHealth (env : HealthEnv) (st : Option Pool) : List Ev × Option Pool × HealthResp :=
  match st with
  | none =>
    ([], none, ⟨200, "OK", "Service is running", false, "Connection pool not initialized"⟩)
  | some p =>
    match env.probe with
    | .ok _ =>
      ([.execQuery p "SELECT 1 AS result" []], some p,
       ⟨200, "OK", "Service is running", true, "Connected"⟩)
    | .error e =>
      let r := initializePool env.envReconn (some p) 1
      (.execQuery p "SELECT 1 AS result" [] :: r.1, r.2.1,
       ⟨200, "OK", "Service is running", false, "Error: " ++ e.message⟩)

/-- A single-attempt `initializePool(1)` emits only pool-lifecycle events. -/
theorem initOne_all_pool_evs (env : ConnEnv) (st : Option Pool) :
    ∀ ev ∈ (initializePool env st 1).1, ev.isPoolEv = true := by
  rcases hc : env.connect 1 with e | q
  · rcases st with _ | p0 <;> simp [initializePool, initLoop, hc, Ev.isPoolEv]
  · rcases ht : env.test 1 with e2 | u <;> rcases st with _ | p0 <;>
      simp [initializePool, initLoop, hc, ht, Ev.isPoolEv]

/-- A single-attempt `initializePool(1)` makes exactly one `sql.connect`
call, whatever its outcome. -/
theorem initOne_count_connect (env : ConnEnv) (st : Option Pool) :
    (initializePool env st 1).1.count Ev.connectCall = 1 := by
  rcases hc : env.connect 1 with e | q
  · rcases st with _ | p0 <;> simp [initializePool, initLoop, hc, List.count_cons]
  · rcases ht : env.test 1 with e2 | u <;> rcases st with _ | p0 <;>
      simp [initializePool, initLoop, hc, ht, List.count_cons]

/-- A single-attempt `initializePool(1)` never runs a caller query. -/
theorem initOne_countP_execQuery (env : ConnEnv) (st : Option Pool) :
    (initializePool env st 1).1.countP Ev.isExecQuery = 0 := by
  rw [List.countP_eq_zero]
  intro ev hev
  have h := initOne_all_pool_evs env st ev hev
  cases ev <;> simp_all [Ev.isPoolEv, Ev.isExecQuery]

/-- C4: every request that fails validation — `POST /api/query` with an
absent or empty query, `POST /api/procedure` with an absent or empty
procedure name, `POST /api/bulk` with a falsy table name or an absent,
non-array or empty `data` — is answered 400 with the handler's validation
message, with an empty event trace (zero database calls: no pool
initialization, no query, no write) and the pool state untouched. -/
theorem validation_errors_no_db_calls :
    (∀ (env : QueryEnv) (st : Option Pool) (params : Option JObj) (q : Option String),
      q = none ∨ q = some "" →
      apiQuery env st q params = ([], st, .badRequest "Query is required")) ∧
    (∀ (env : ProcEnv) (st : Option Pool) (params : Option JObj) (pr : Option String),
      pr = none ∨ pr = some "" →
      apiProcedure env st pr params = ([], st, .badRequest "Procedure name is required")) ∧
    (∀ (env : BulkEnv) (st : Option Pool) (t : Option String) (d : Option (List JObj)),
      t = none ∨ t = some "" ∨ d = none ∨ d = some [] →
      apiBulk env st t d = ([], st, .badRequest "Valid table name and data array are required")) := by
  refine ⟨?_, ?_, ?_⟩
  · rintro env st params q (rfl | rfl) <;> rfl
  · rintro env st params pr (rfl | rfl) <;> rfl
  · rintro env st t d (rfl | rfl | rfl | rfl)
    · rcases d with _ | (_ | ⟨x, xs⟩) <;> rfl
    · rcases d with _ | (_ | ⟨x, xs⟩)
      · rfl
      · rfl
      · simp [apiBulk]
    · rcases t with _ | s <;> rfl
    · rcases t with _ | s <;> rfl

/-- A connection environment whose single attempt succeeds (pool id 7),
used to instantiate witnesses. -/
def sampleConnEnv : ConnEnv := ⟨fun _ => .ok 7, fun _ => .ok ()⟩

/-- A query environment with a healthy pool path, for witnesses. -/
def sampleQueryEnv : QueryEnv := ⟨sampleConnEnv, sampleConnEnv, .ok ⟨[], [1]⟩⟩

/-- A procedure environment, for witnesses. -/
def sampleProcEnv : ProcEnv := ⟨sampleConnEnv, sampleConnEnv, .ok ⟨[], [], [1]⟩⟩

/-- A bulk environment, for witnesses. -/
def sampleBulkEnv : BulkEnv := ⟨sampleConnEnv, sampleConnEnv, .ok 1⟩

theorem validation_errors_no_db_calls_witness :
    apiQuery sampleQueryEnv (some 7) none none
      = ([], some 7, .badRequest "Query is required") ∧
    apiProcedure sampleProcEnv (some 7) (some "") none
      = ([], some 7, .badRequest "Procedure name is required") ∧
    apiBulk sampleBulkEnv (some 7) (some "t") (some [])
      = ([], some 7, .badRequest "Valid table name and data array are required") :=
  ⟨validation_errors_no_db_calls.1 sampleQueryEnv (some 7) none none (Or.inl rfl),
   validation_errors_no_db_calls.2.1 sampleProcEnv (some 7) none (some "") (Or.inr rfl),
   validation_errors_no_db_calls.2.2 sampleBulkEnv (some 7) (some "t") (some [])
     (Or.inr (Or.inr (Or.inr rfl)))⟩

/-- C5: when `request.query` fails on a live pool with a connection-class
error code, the handler makes exactly one reconnect attempt
(`initializePool(1)`, one `sql.connect` call), the reconnect's own outcome
is swallowed (the environment `env.envReconn` is arbitrary, including
failing ones, and does not influence the response), the response carries
the original error's message and code, and the original query is executed
exactly once (never re-executed).  A statement-class failure (code not
connection-class) triggers no reconnect at all: the trace is just the one
query execution. -/
theorem query_reconnect_policy (env : QueryEnv) (p : Pool) (q : String) (params : Option JObj)
    (e : SqlError) (hq : q ≠ "") (hexec : env.exec = .error e) :
    (isConnCode e.code = true →
      apiQuery env (some p) (some q) params =
        (.execQuery p q (bindParams params) :: (initializePool env.envReconn (some p) 1).1,
         (initializePool env.envReconn (some p) 1).2.1,
         .serverError e.message e.code) ∧
      (apiQuery env (some p) (some q) params).1.count Ev.connectCall = 1 ∧
      (apiQuery env (some p) (some q) params).1.countP Ev.isExecQuery = 1) ∧
    (isConnCode e.code = false →
      apiQuery env (some p) (some q) params =
        ([.execQuery p q (bindParams params)], some p, .serverError e.message e.code)) := by
  constructor
  · intro hcc
    have heq : apiQuery env (some p) (some q) params =
        (.execQuery p q (bindParams params) :: (initializePool env.envReconn (some p) 1).1,
         (initializePool env.envReconn (some p) 1).2.1,
         .serverError e.message e.code) := by
      simp [apiQuery, hq, apiQueryRun, hexec, errorCatch, hcc]
    refine ⟨heq, ?_, ?_⟩
    · rw [heq]
      simp [List.count_cons, initOne_count_connect]
    · rw [heq]
      simp [List.countP_cons, initOne_countP_execQuery, Ev.isExecQuery]
  · intro hcc
    simp [apiQuery, hq, apiQueryRun, hexec, errorCatch, hcc]

/-- A query environment whose execution times out, for the C5 witness. -/
def timeoutQueryEnv : QueryEnv := ⟨sampleConnEnv, sampleConnEnv, .error ⟨some "ETIMEOUT", "timeout"⟩⟩

theorem query_reconnect_policy_witness :
    apiQuery timeoutQueryEnv (some 7) (some "SELECT 1") none =
      (.execQuery 7 "SELECT 1" [] :: (initializePool timeoutQueryEnv.envReconn (some 7) 1).1,
       (initializePool timeoutQueryEnv.envReconn (some 7) 1).2.1,
       .serverError "timeout" (some "ETIMEOUT")) :=
  ((query_reconnect_policy timeoutQueryEnv 7 "SELECT 1" none ⟨some "ETIMEOUT", "timeout"⟩
      (by decide) rfl).1 (by decide)).1

/-- C8: on a successful `request.query`, the response's `rowsAffected` is
`result.rowsAffected[0]` — the first affected-count entry the driver
reports — and the remaining entries `rest` of a multi-statement batch do
not appear anywhere in the response. -/
theorem query_rows_affected_is_first_entry (env : QueryEnv) (p : Pool) (q : String)
    (params : Option JObj) (recs : List JObj) (n : Nat) (rest : List Nat) (hq : q ≠ "")
    (hexec : env.exec = .ok ⟨recs, n :: rest⟩) :
    apiQuery env (some p) (some q) params =
      ([.execQuery p q (bindParams params)], some p, .ok recs (some n)) := by
  simp [apiQuery, hq, apiQueryRun, hexec]

/-- A query environment whose driver reports two affected counts, for the
C8 witness. -/
def batchQueryEnv : QueryEnv :=
  ⟨sampleConnEnv, sampleConnEnv, .ok ⟨[[("x", JVal.num 1)]], [3, 9]⟩⟩

theorem query_rows_affected_is_first_entry_witness :
    apiQuery batchQueryEnv (some 7) (some "UPDATE t SET a = 1") none =
      ([.execQuery 7 "UPDATE t SET a = 1" []], some 7, .ok [[("x", JVal.num 1)]] (some 3)) :=
  query_rows_affected_is_first_entry batchQueryEnv 7 "UPDATE t SET a = 1" none
    [[("x", JVal.num 1)]] 3 [9] (by decide) rfl

/-- C9: `GET /api/health` answers HTTP 200 with top-level status `OK` and
message `Service is running` in every pool state and for every probe
outcome (the handler is a total function, so it never raises); database
unavailability is reported only inside the `database` field: `connected:
false` with a descriptive message both when the pool is absent and when
the probe query fails. -/
theorem health_always_ok (env : HealthEnv) (st : Option Pool) :
    ((apiHealth env st).2.2.httpStatus = 200 ∧ (apiHealth env st).2.2.status = "OK" ∧
      (apiHealth env st).2.2.message = "Service is running") ∧
    (st = none → (apiHealth env st).2.2.dbConnected = false ∧
      (apiHealth env st).2.2.dbMessage = "Connection pool not initialized") ∧
    (∀ p e, st = some p → env.probe = .error e →
      (apiHealth env st).2.2.dbConnected = false ∧
      (apiHealth env st).2.2.dbMessage = "Error: " ++ e.message) := by
  refine ⟨?_, ?_, ?_⟩
  · rcases st with _ | p
    · exact ⟨rfl, rfl, rfl⟩
    · rcases hp : env.probe with e | u <;> simp [apiHealth, hp]
  · rintro rfl
    exact ⟨rfl, rfl⟩
  · rintro p e rfl hp
    simp [apiHealth, hp]

/-- A health environment whose probe query fails, for the C9 witness. -/
def failingHealthEnv : HealthEnv := ⟨.error ⟨none, "probe failed"⟩, sampleConnEnv⟩

theorem health_always_ok_witness :
    ((apiHealth failingHealthEnv (some 7)).2.2.httpStatus = 200 ∧
      (apiHealth failingHealthEnv (some 7)).2.2.status = "OK" ∧
      (apiHealth failingHealthEnv (some 7)).2.2.message = "Service is running") ∧
    ((apiHealth failingHealthEnv (some 7)).2.2.dbConnected = false ∧
      (apiHealth failingHealthEnv (some 7)).2.2.dbMessage = "Error: " ++ "probe failed") :=
  ⟨(health_always_ok failingHealthEnv (some 7)).1,
   (health_always_ok failingHealthEnv (some 7)).2.2 7 ⟨none, "probe failed"⟩ rfl rfl⟩

/-- C6: for a non-empty `data` array, the bulk table sent to the database
declares exactly the keys of `data[0]` in insertion order as its columns,
every column as nullable `VarChar(MAX)`; every row's values are extracted
in that column order with a missing key passed through as `none`
(`undefined`, transmitted as NULL), never an error; the first trace event
of a bulk request on a live pool is the bulk write of exactly this table;
and in particular rows `[{a:1,b:2}, {a:3}]` produce two rows over columns
`[a, b]` with the second row's `b` absent. -/
theorem bulk_columns_from_first_row (t : String) (first : JObj) (rest : List JObj) :
    (buildBulkTable t (first :: rest)).columns
        = (jKeys first).map (fun c => (c, SqlType.varChar none, true)) ∧
    (buildBulkTable t (first :: rest)).rows
        = (first :: rest).map (fun item => (jKeys first).map (fun c => jLookup item c)) ∧
    (∀ (env : BulkEnv) (p : Pool), t ≠ "" →
      (apiBulk env (some p) (some t) (some (first :: rest))).1.head?
        = some (.bulkWrite p (buildBulkTable t (first :: rest)))) ∧
    buildBulkTable "t" [[("a", JVal.num 1), ("b", JVal.num 2)], [("a", JVal.num 3)]]
      = ⟨"t", [("a", .varChar none, true), ("b", .varChar none, true)],
         [[some (.num 1), some (.num 2)], [some (.num 3), none]]⟩ := by
  refine ⟨rfl, rfl, ?_, by decide⟩
  intro env p ht
  rcases hb : env.bulkExec with e | n <;> simp [apiBulk, ht, apiBulkRun, hb]

theorem bulk_columns_from_first_row_witness :
    (apiBulk sampleBulkEnv (some 7) (some "t")
        (some [[("a", JVal.num 1), ("b", JVal.num 2)], [("a", JVal.num 3)]])).1.head?
      = some (.bulkWrite 7 (buildBulkTable "t"
          [[("a", JVal.num 1), ("b", JVal.num 2)], [("a", JVal.num 3)]])) :=
  (bulk_columns_from_first_row "t" [("a", JVal.num 1), ("b", JVal.num 2)]
      [[("a", JVal.num 3)]]).2.2.1 sampleBulkEnv 7 (by decide)

/-- C10: two bulk requests for the same table whose row lists have the
same first row and the same length, and whose later rows agree on every
key of `rows[0]`, build identical bulk tables — keys of later rows outside
the columns of `rows[0]` are silently ignored and can never influence the
columns, the row count or any transmitted value. -/
theorem bulk_ignores_extra_keys (t : String) (first : JObj) (rest1 rest2 : List JObj)
    (hlen : rest1.length = rest2.length)
    (hagree : ∀ pr ∈ rest1.zip rest2, ∀ k ∈ jKeys first, jLookup pr.1 k = jLookup pr.2 k) :
    buildBulkTable t (first :: rest1) = buildBulkTable t (first :: rest2) := by
  have key : ∀ (l1 l2 : List JObj), l1.length = l2.length →
      (∀ pr ∈ l1.zip l2, ∀ k ∈ jKeys first, jLookup pr.1 k = jLookup pr.2 k) →
      l1.map (fun item => (jKeys first).map (fun c => jLookup item c))
        = l2.map (fun item => (jKeys first).map (fun c => jLookup item c)) := by
    intro l1
    induction l1 with
    | nil =>
      intro l2 hl _
      cases l2 with
      | nil => rfl
      | cons b l2t => simp at hl
    | cons a l1t ih =>
      intro l2 hl hag
      cases l2 with
      | nil => simp at hl
      | cons b l2t =>
        simp only [List.map_cons]
        refine congrArg₂ List.cons ?_ ?_
        · exact List.map_congr_left (fun c hc => hag (a, b) (by simp) c hc)
        · exact ih l2t (by simpa using hl)
            (fun pr hpr k hk => hag pr (by simp [hpr]) k hk)
  unfold buildBulkTable
  simp only [List.map_cons]
  rw [key rest1 rest2 hlen hagree]

theorem bulk_ignores_extra_keys_witness :
    buildBulkTable "t"
        [[("a", JVal.num 1), ("b", JVal.num 2)], [("a", JVal.num 3), ("c", JVal.num 9)]]
      = buildBulkTable "t"
        [[("a", JVal.num 1), ("b", JVal.num 2)], [("a", JVal.num 3)]] :=
  bulk_ignores_extra_keys "t" [("a", JVal.num 1), ("b", JVal.num 2)]
    [[("a", JVal.num 3), ("c", JVal.num 9)]] [[("a", JVal.num 3)]] rfl (by decide)

/-- When every statement succeeds, the transaction loop executes the
queries in list order and collects one result per statement, in order. -/
theorem txLoop_all_ok (env : TxEnv) (res : Nat → QueryResult) :
    ∀ (qs : List TxQuery) (i : Nat),
      (∀ k, k < qs.length → env.execTx (i + k) = .ok (res (i + k))) →
      txLoop env qs i =
        (qs.map (fun q => Ev.txQuery q.query (bindParams q.params)),
         .ok ((List.range qs.length).map (fun k =>
           ⟨(res (i + k)).recordset, (res (i + k)).rowsAffected.head?⟩))) := by
  intro qs
  induction qs with
  | nil => intro i _; rfl
  | cons q rest ih =>
    intro i h
    have h0 : env.execTx i = .ok (res i) := by
      have h00 := h 0 (Nat.succ_pos _)
      simpa using h00
    have hrec := ih (i + 1) (fun k hk => by
      have hk1 := h (k + 1) (Nat.succ_lt_succ hk)
      rw [show i + (k + 1) = i + 1 + k by omega] at hk1
      exact hk1)
    have hr : (List.range (rest.length + 1)).map
        (fun k => (⟨(res (i + k)).recordset, (res (i + k)).rowsAffected.head?⟩ : TxResult))
        = (⟨(res i).recordset, (res i).rowsAffected.head?⟩ : TxResult) ::
          (List.range rest.length).map
            (fun k => (⟨(res (i + 1 + k)).recordset,
              (res (i + 1 + k)).rowsAffected.head?⟩ : TxResult)) := by
      rw [List.range_succ_eq_map, List.map_cons, List.map_map]
      refine congrArg₂ List.cons (by simp) ?_
      refine List.map_congr_left (fun k _ => ?_)
      simp only [Function.comp_apply]
      rw [show i + (k + 1) = i + 1 + k by omega]
    simp only [txLoop, h0, hrec, List.map_cons, List.length_cons, hr]

/-- When statement `j` is the first to fail, the transaction loop executes
exactly the statements up to and including `j` — later statements never
start — and returns the triggering error. -/
theorem txLoop_stops_at_failure (env : TxEnv) (e : SqlError) :
    ∀ (qs : List TxQuery) (i j : Nat),
      j < qs.length →
      (∀ k, k < j → ∃ r0, env.execTx (i + k) = .ok r0) →
      env.execTx (i + j) = .error e →
      txLoop env qs i =
        ((qs.take (j + 1)).map (fun q => Ev.txQuery q.query (bindParams q.params)),
         .error e) := by
  intro qs
  induction qs with
  | nil =>
    intro i j hj
    simp at hj
  | cons q rest ih =>
    intro i j hj hok hfail
    cases j with
    | zero =>
      have h0 : env.execTx i = .error e := by simpa using hfail
      simp [txLoop, h0]
    | succ j0 =>
      obtain ⟨res0, h0⟩ := hok 0 (Nat.succ_pos _)
      have h0i : env.execTx i = .ok res0 := by simpa using h0
      have hrec := ih (i + 1) j0 (by simpa using Nat.lt_of_succ_lt_succ hj)
        (fun k hk => by
          obtain ⟨resk, hres⟩ := hok (k + 1) (Nat.succ_lt_succ hk)
          rw [show i + (k + 1) = i + 1 + k by omega] at hres
          exact ⟨resk, hres⟩)
        (by
          rw [show i + 1 + j0 = i + (j0 + 1) by omega]
          exact hfail)
      simp [txLoop, h0i, hrec]

/-- C7: transaction statements run strictly sequentially in input order.
When every statement succeeds, the event trace is `begin`, then exactly
one `txQuery` per input statement in input order, then `commit`, and the
`results` array holds at index `k` the ExecutionResult of input statement
`k`.  When statement `j` is the first to fail, the trace contains the
`txQuery` events of statements `0..j` only — statement `j+1` never starts
before statement `j`'s result is obtained. -/
theorem transaction_sequential_and_indexed :
    (∀ (env : TxEnv) (p : Pool) (qs : List TxQuery) (res : Nat → QueryResult),
      qs ≠ [] → env.beginRes = .ok () →
      (∀ k, k < qs.length → env.execTx k = .ok (res k)) →
      env.commitRes = .ok () →
      apiTransaction env (some p) (some qs) =
        (.beginTx p :: qs.map (fun q => Ev.txQuery q.query (bindParams q.params))
           ++ [.commitTx],
         some p,
         .ok ((List.range qs.length).map (fun k =>
           ⟨(res k).recordset, (res k).rowsAffected.head?⟩)))) ∧
    (∀ (env : TxEnv) (p : Pool) (qs : List TxQuery) (j : Nat) (e : SqlError),
      j < qs.length → env.beginRes = .ok () →
      (∀ k, k < j → ∃ r0, env.execTx k = .ok r0) →
      env.execTx j = .error e →
      (apiTransaction env (some p) (some qs)).1 =
        .beginTx p :: (qs.take (j + 1)).map (fun q => Ev.txQuery q.query (bindParams q.params))
          ++ (txCatch env (some p) true e).1) := by
  constructor
  · rintro env p qs res hne hb hexec hc
    rcases qs with _ | ⟨q, rest⟩
    · exact absurd rfl hne
    have hloop := txLoop_all_ok env res (q :: rest) 0 (fun k hk => by
      rw [Nat.zero_add]
      exact hexec k hk)
    simp only [Nat.zero_add] at hloop
    simp [apiTransaction, apiTransactionRun, hb, hloop, hc]
  · rintro env p qs j e hj hb hok hfail
    rcases qs with _ | ⟨q, rest⟩
    · simp at hj
    have hloop := txLoop_stops_at_failure env e (q :: rest) 0 j hj
      (fun k hk => by
        rw [Nat.zero_add]
        exact hok k hk)
      (by
        rw [Nat.zero_add]
        exact hfail)
    simp [apiTransaction, apiTransactionRun, hb, hloop]

/-- An all-success transaction environment for witnesses. -/
def sampleTxEnv : TxEnv :=
  ⟨sampleConnEnv, sampleConnEnv, .ok (), fun _ => .ok ⟨[], [1]⟩, .ok (), .ok ()⟩

theorem transaction_sequential_and_indexed_witness :
    apiTransaction sampleTxEnv (some 7) (some [⟨"INSERT A", none⟩, ⟨"INSERT B", none⟩]) =
      ([.beginTx 7, .txQuery "INSERT A" [], .txQuery "INSERT B" [], .commitTx],
       some 7,
       .ok [⟨[], some 1⟩, ⟨[], some 1⟩]) := by
  have h := transaction_sequential_and_indexed.1 sampleTxEnv 7
    [⟨"INSERT A", none⟩, ⟨"INSERT B", none⟩] (fun _ => ⟨[], [1]⟩)
    (List.cons_ne_nil _ _) rfl (fun k _ => rfl) rfl
  simpa using h

/-- The catch-block reconnect never emits a `commitTx` event. -/
theorem errorCatch_no_commit (reconnEnv : ConnEnv) (st : Option Pool) (e : SqlError) :
    Ev.commitTx ∉ (errorCatch reconnEnv st e).1 := by
  by_cases hcond : (isConnCode e.code || st.isNone) = true
  · simp only [errorCatch, hcond, if_true]
    intro h
    have hp := initOne_all_pool_evs reconnEnv st _ h
    simp [Ev.isPoolEv] at hp
  · simp [errorCatch, hcond]

/-- C1: caller-observable atomicity of `POST /api/transaction` on a live
pool.  (1) When every statement and the commit succeed, the 200 response
carries the ExecutionResult of every statement and the trace's last event
is the commit — results are released only after commit — and no rollback
happens.  (2) When a statement fails, the response is a 500 carrying the
original statement error's message and code, no results at all (the
response is not an `ok`), a rollback is performed and no commit; the
rollback outcome `env.rollbackRes` is universally quantified and absent
from the response — a rollback failure is only logged and never replaces
the original error.  (3) When all statements succeed but the commit
fails, the commit error is surfaced and a rollback is performed, so no
success response escapes without a successful commit. -/
theorem transaction_atomicity :
    (∀ (env : TxEnv) (p : Pool) (qs : List TxQuery) (res : Nat → QueryResult),
      qs ≠ [] → env.beginRes = .ok () →
      (∀ k, k < qs.length → env.execTx k = .ok (res k)) →
      env.commitRes = .ok () →
      (apiTransaction env (some p) (some qs)).2.2 =
        .ok ((List.range qs.length).map (fun k =>
          ⟨(res k).recordset, (res k).rowsAffected.head?⟩)) ∧
      (apiTransaction env (some p) (some qs)).1.getLast? = some .commitTx ∧
      Ev.rollbackTx ∉ (apiTransaction env (some p) (some qs)).1) ∧
    (∀ (env : TxEnv) (p : Pool) (qs : List TxQuery) (j : Nat) (e : SqlError),
      j < qs.length → env.beginRes = .ok () →
      (∀ k, k < j → ∃ r0, env.execTx k = .ok r0) →
      env.execTx j = .error e →
      (apiTransaction env (some p) (some qs)).2.2 = .serverError e.message e.code ∧
      Ev.rollbackTx ∈ (apiTransaction env (some p) (some qs)).1 ∧
      Ev.commitTx ∉ (apiTransaction env (some p) (some qs)).1) ∧
    (∀ (env : TxEnv) (p : Pool) (qs : List TxQuery) (res : Nat → QueryResult) (ce : SqlError),
      qs ≠ [] → env.beginRes = .ok () →
      (∀ k, k < qs.length → env.execTx k = .ok (res k)) →
      env.commitRes = .error ce →
      (apiTransaction env (some p) (some qs)).2.2 = .serverError ce.message ce.code ∧
      Ev.rollbackTx ∈ (apiTransaction env (some p) (some qs)).1) := by
  refine ⟨?_, ?_, ?_⟩
  · rintro env p qs res hne hb hexec hc
    rcases qs with _ | ⟨q, rest⟩
    · exact absurd rfl hne
    have hloop := txLoop_all_ok env res (q :: rest) 0 (fun k hk => by
      rw [Nat.zero_add]
      exact hexec k hk)
    simp only [Nat.zero_add] at hloop
    refine ⟨?_, ?_, ?_⟩
    · simp [apiTransaction, apiTransactionRun, hb, hloop, hc]
    · have htr : (apiTransaction env (some p) (some (q :: rest))).1
          = (Ev.beginTx p ::
              List.map (fun q0 => Ev.txQuery q0.query (bindParams q0.params)) (q :: rest))
            ++ [Ev.commitTx] := by
        simp [apiTransaction, apiTransactionRun, hb, hloop, hc]
      rw [htr, List.getLast?_concat]
    · simp [apiTransaction, apiTransactionRun, hb, hloop, hc]
  · rintro env p qs j e hj hb hok hfail
    rcases qs with _ | ⟨q, rest⟩
    · simp at hj
    have hloop := txLoop_stops_at_failure env e (q :: rest) 0 j hj
      (fun k hk => by
        rw [Nat.zero_add]
        exact hok k hk)
      (by
        rw [Nat.zero_add]
        exact hfail)
    refine ⟨?_, ?_, ?_⟩
    · simp [apiTransaction, apiTransactionRun, hb, hloop, txCatch]
    · simp [apiTransaction, apiTransactionRun, hb, hloop, txCatch]
    · have hnc := errorCatch_no_commit env.envReconn (some p) e
      simp [apiTransaction, apiTransactionRun, hb, hloop, txCatch]
      refine ⟨fun hmem => ?_, hnc⟩
      have hm2 := List.mem_of_mem_take hmem
      simp at hm2
  · rintro env p qs res ce hne hb hexec hc
    rcases qs with _ | ⟨q, rest⟩
    · exact absurd rfl hne
    have hloop := txLoop_all_ok env res (q :: rest) 0 (fun k hk => by
      rw [Nat.zero_add]
      exact hexec k hk)
    simp only [Nat.zero_add] at hloop
    constructor
    · simp [apiTransaction, apiTransactionRun, hb, hloop, hc, txCatch]
    · simp [apiTransaction, apiTransactionRun, hb, hloop, hc, txCatch]

/-- A transaction environment whose second statement fails and whose
rollback also fails, for the C1 witness: the caller still sees the
original statement error. -/
def failingTxEnv : TxEnv :=
  ⟨sampleConnEnv, sampleConnEnv, .ok (),
   fun i => if i = 0 then .ok ⟨[], [1]⟩ else .error ⟨none, "constraint violation"⟩,
   .ok (), .error ⟨none, "rollback also failed"⟩⟩

theorem transaction_atomicity_witness :
    (apiTransaction failingTxEnv (some 7)
        (some [⟨"INSERT A", none⟩, ⟨"INSERT B", none⟩])).2.2
      = .serverError "constraint violation" none ∧
    Ev.rollbackTx ∈ (apiTransaction failingTxEnv (some 7)
        (some [⟨"INSERT A", none⟩, ⟨"INSERT B", none⟩])).1 ∧
    Ev.commitTx ∉ (apiTransaction failingTxEnv (some 7)
        (some [⟨"INSERT A", none⟩, ⟨"INSERT B", none⟩])).1 :=
  transaction_atomicity.2.1 failingTxEnv 7 [⟨"INSERT A", none⟩, ⟨"INSERT B", none⟩] 1
    ⟨none, "constraint violation"⟩ (by decide) rfl
    (fun k hk => ⟨⟨[], [1]⟩, by
      have hk0 : k = 0 := Nat.lt_one_iff.mp hk
      subst hk0
      rfl⟩)
    rfl

/-- A connection environment in which every attempt fails, for the C3
witness. -/
def alwaysFailConnEnv : ConnEnv :=
  ⟨fun _ => .error ⟨some "ESOCKET", "getaddrinfo ENOTFOUND"⟩, fun _ => .ok ()⟩

theorem initializePool_five_failed_attempts_witness :
    initializePool alwaysFailConnEnv none 5 =
      ([.connectCall, .wait 2000, .connectCall, .wait 4000, .connectCall, .wait 6000,
        .connectCall, .wait 8000, .connectCall], none,
       .err ⟨some "ESOCKET", "getaddrinfo ENOTFOUND"⟩) ∧
    (initializePool alwaysFailConnEnv none 5).1.count Ev.connectCall = 5 :=
  initializePool_five_failed_attempts alwaysFailConnEnv
    (fun _ => ⟨some "ESOCKET", "getaddrinfo ENOTFOUND"⟩) (fun _ => rfl)

end WixSql
